import Mathlib

/-!
Verification of the authentication core of a NestJS clean-architecture
repository.  The TypeScript sources are shallowly embedded as executable
Lean definitions: pure validators become Lean functions returning
`Except`, stateful service methods become explicit state-passing
functions over a list-based store, bcrypt digests are idealised as an
inductive type remembering the hashed input, and JWTs carry their
payload, signing secret, and issuance/expiry instants.
-/

namespace CleanArch

/-! ## Auth domain rules (src/domain/services/auth-domain.service.ts) -/

/-- Special characters admitted by the password regex body
`[a-zA-Z\d@$!%*?&]`. -/
def isPasswordSpecialChar (c : Char) : Bool :=
  c = '@' || c = '$' || c = '!' || c = '%' || c = '*' || c = '?' || c = '&'

/-- Characters matched by the password regex body class. -/
def isPasswordBodyChar (c : Char) : Bool :=
  c.isLower || c.isUpper || c.isDigit || isPasswordSpecialChar c

/-- Denotation of `AuthDomainService.isPasswordValid`, i.e. of the regex
`^(?=.*[a-z])(?=.*[A-Z])(?=.*\d)[a-zA-Z\d@$!%*?&]{8,}$`: the whole string
consists of at least eight characters drawn from the body class, and the
three lookaheads require a lowercase letter, an uppercase letter and a
digit somewhere in the string. -/
def isPasswordValid (s : String) : Bool :=
  decide (8 ≤ s.length) && s.data.all isPasswordBodyChar &&
    s.data.any Char.isLower && s.data.any Char.isUpper && s.data.any Char.isDigit

/-- Blankness test used by the TypeScript guards of the shape
`!s || s.trim() === ''`: the string is empty or consists of whitespace
only.  (`String.prototype.trim` removes leading and trailing whitespace,
so the trimmed string is empty exactly when every character is
whitespace; the empty string is covered by `!s`.) -/
def strBlank (s : String) : Bool :=
  s.data.all Char.isWhitespace

/-- Presence test for optional OAuth fields, the denotation of
`oauthData.x && oauthData.x.trim() !== ''`. -/
def hasPresent : Option String → Bool
  | none => false
  | some s => !(strBlank s)

/-- Input record of `AuthDomainService.validateMobileOAuthData`. -/
structure MobileOAuthData where
  platform : String
  idToken : Option String := none
  code : Option String := none
  code_verifier : Option String := none
deriving DecidableEq, Repr

/-- Embeds `AuthDomainService.isPlatformSupported`. -/
def isPlatformSupported (platform : String) : Bool :=
  platform = "ios" || platform = "android"

/-- Embeds `AuthDomainService.validateMobileOAuthData`: platform check
first, then the exactly-one-of `idToken`/`code` check, then the PKCE
verifier requirement for the code flow. -/
def validateMobileOAuthData (d : MobileOAuthData) : Except String Unit :=
  if isPlatformSupported d.platform = false then
    .error ("Unsupported platform: " ++ d.platform)
  else
    let hasIdToken := hasPresent d.idToken
    let hasCode := hasPresent d.code
    let hasCodeVerifier := hasPresent d.code_verifier
    if hasIdToken && hasCode then
      .error "Cannot provide both idToken and code. Choose one authentication method."
    else if !hasIdToken && !hasCode then
      .error "Either idToken or code must be provided"
    else if hasCode && !hasCodeVerifier then
      .error "Code verifier is required when using authorization code flow"
    else
      .ok ()

/-- Characters admitted by the PKCE code-verifier regex class
`[A-Za-z0-9\-._~]`. -/
def isCodeVerifierChar (c : Char) : Bool :=
  c.isUpper || c.isLower || c.isDigit || c = '-' || c = '.' || c = '_' || c = '~'

/-- Denotation of the regex test `^[A-Za-z0-9\-._~]+$`. -/
def codeVerifierCharsetTest (s : String) : Bool :=
  !s.data.isEmpty && s.data.all isCodeVerifierChar

/-- Embeds `AuthDomainService.validateCodeVerifierFormat`: blank check,
then the PKCE length bounds, then the charset regex. -/
def validateCodeVerifierFormat (s : String) : Except String Unit :=
  if strBlank s = true then
    .error "Code verifier is required for PKCE flow"
  else if s.length < 43 ∨ 128 < s.length then
    .error "Code verifier must be between 43 and 128 characters"
  else if codeVerifierCharsetTest s = false then
    .error "Code verifier contains invalid characters"
  else
    .ok ()

/-- Embeds `AuthDomainService.validatePasswordChangeData`: strength of
the new password is checked first, then plaintext difference from the
old password. -/
def validatePasswordChangeData (oldPassword newPassword : String) : Except String Unit :=
  if isPasswordValid newPassword = false then
    .error "Password must include at least one uppercase letter, one lowercase letter, and one number"
  else if oldPassword = newPassword then
    .error "New password must be different from old password"
  else
    .ok ()

/-! ## Credential and token codec

Bcrypt digests are idealised: a digest remembers the value it was
produced from, and `bcrypt.compare` succeeds exactly on that value (the
standard no-collision idealisation of a cryptographic hash).  JWTs are
records of their claims, signing secret and issuance/expiry instants, so
two tokens signed at different instants are different values, exactly as
the `iat`/`exp` claims of real JWTs make them. -/

inductive Role where
  | user
  | admin
deriving DecidableEq, Repr

/-- Payload signed into the tokens by `AuthService.generateTokens`. -/
structure JwtClaims where
  email : String
  sub : String
  roles : List Role
deriving DecidableEq, Repr

/-- An issued JWT: claims, signing secret, issued-at and expiry. -/
structure Jwt where
  claims : JwtClaims
  secret : String
  iat : Nat
  exp : Nat
deriving DecidableEq, Repr

def JWT_SECRET : String := "your-default-secret"

def JWT_REFRESH_SECRET : String := "your-default-refresh-secret"

/-- Access tokens expire in 1 hour (`expiresIn: '1h'`). -/
def accessTokenTtl : Nat := 3600

/-- Refresh tokens expire in 7 days (`JWT_REFRESH_EXPIRATION_TIME`). -/
def refreshTokenTtl : Nat := 604800

def jwtSign (c : JwtClaims) (secret : String) (now ttl : Nat) : Jwt :=
  ⟨c, secret, now, now + ttl⟩

/-- Embeds `jwtService.verify`: the signature matches exactly when the
token was signed with the expected secret, and the token must not be
expired. -/
def jwtVerify (t : Jwt) (secret : String) (now : Nat) : Except String JwtClaims :=
  if t.secret ≠ secret then .error "invalid signature"
  else if t.exp < now then .error "jwt expired"
  else .ok t.claims

/-- Idealised bcrypt digest: remembers the hashed input (a password
string or a serialised token) and the cost factor. -/
inductive BcryptHash where
  | ofPassword (plain : String) (cost : Nat)
  | ofToken (tok : Jwt) (cost : Nat)
deriving DecidableEq, Repr

/-- Embeds `bcrypt.compare(plain, stored)` for the password column;
`none` models the empty-string password of OAuth-only identities, which
no plaintext ever matches. -/
def bcryptComparePassword (plain : String) (stored : Option BcryptHash) : Bool :=
  match stored with
  | some (.ofPassword q _) => plain = q
  | _ => false

/-- Embeds `bcrypt.compare(refreshToken, stored)` for the refresh-token
column. -/
def bcryptCompareToken (t : Jwt) (stored : BcryptHash) : Bool :=
  match stored with
  | .ofToken u _ => t = u
  | _ => false

/-! ## AuthIdentity store (src/infrastructure/repository/auth.repository.ts)

`AuthRepository.findById` always selects `currentHashedRefreshToken` and
returns the password column only behind the `withPassword` flag; the
embedding keeps the whole record and lets callers read what the source
reads. -/

structure AuthUser where
  id : String
  email : String
  password : Option BcryptHash
  role : List Role
  googleId : Option String := none
  appleId : Option String := none
  currentHashedRefreshToken : Option BcryptHash := none
  lastLoginAt : Option Nat := none
deriving DecidableEq, Repr

abbrev AuthStore := List AuthUser

def findById (s : AuthStore) (id : String) : Option AuthUser :=
  s.find? (fun u => u.id = id)

def updateById (s : AuthStore) (id : String) (f : AuthUser → AuthUser) : AuthStore :=
  s.map (fun u => if u.id = id then f u else u)

def setRefreshHash (h : Option BcryptHash) (u : AuthUser) : AuthUser :=
  { u with currentHashedRefreshToken := h }

def setPasswordAndClearRefresh (newHash : BcryptHash) (u : AuthUser) : AuthUser :=
  { u with password := some newHash, currentHashedRefreshToken := none }

/-! ## Identity orchestrator (AuthService) -/

/-- Error vocabulary of the service layer: the NestJS HTTP exceptions
plus plain `Error` throws. -/
inductive AppError where
  | badRequest (msg : String)
  | unauthorized (msg : String)
  | notFound (msg : String)
  | jsError (msg : String)
deriving DecidableEq, Repr

structure TokenPair where
  access_token : Jwt
  refresh_token : Jwt
deriving DecidableEq, Repr

/-- Embeds `AuthService.generateTokens`: both tokens carry
`{email, sub: id, roles}` and are signed at the current instant with
their respective secrets and lifetimes. -/
def generateTokens (auth : AuthUser) (now : Nat) : TokenPair :=
  let payload : JwtClaims := ⟨auth.email, auth.id, auth.role⟩
  ⟨jwtSign payload JWT_SECRET now accessTokenTtl,
   jwtSign payload JWT_REFRESH_SECRET now refreshTokenTtl⟩

/-- Body of the `try` block of `AuthService.refreshToken`: verify the
token, look up the subject, require a stored refresh hash, compare, then
rotate by overwriting the stored hash with the hash of the newly issued
refresh token. -/
def refreshTokenInner (s : AuthStore) (token : Jwt) (now : Nat) :
    Except AppError (AuthStore × TokenPair) :=
  match jwtVerify token JWT_REFRESH_SECRET now with
  | .error e => .error (.jsError e)
  | .ok payload =>
    match findById s payload.sub with
    | none => .error (.unauthorized "User not found")
    | some auth =>
      match auth.currentHashedRefreshToken with
      | none => .error (.unauthorized "Refresh token revoked")
      | some stored =>
        if bcryptCompareToken token stored = false then
          .error (.unauthorized "Invalid refresh token")
        else
          let pair := generateTokens auth now
          let hashed := BcryptHash.ofToken pair.refresh_token 10
          (.ok (updateById s auth.id (setRefreshHash (some hashed)), pair))

/-- Embeds `AuthService.refreshToken`: the surrounding `catch` replaces
every failure by `UnauthorizedException('Invalid refresh token')`. -/
def refreshToken (s : AuthStore) (token : Jwt) (now : Nat) :
    Except AppError (AuthStore × TokenPair) :=
  match refreshTokenInner s token now with
  | .ok r => .ok r
  | .error _ => .error (.unauthorized "Invalid refresh token")

/-- Embeds `AuthService.changePassword`.  The first component of the
result is the store after the call (unchanged on every failure, since
the source throws before its only repository write). -/
def changePassword (s : AuthStore) (userId oldPassword newPassword : String) :
    AuthStore × Except AppError String :=
  match validatePasswordChangeData oldPassword newPassword with
  | .error e => (s, .error (.jsError e))
  | .ok _ =>
    match findById s userId with
    | none => (s, .error (.notFound "User not found"))
    | some auth =>
      if bcryptComparePassword oldPassword auth.password = false then
        (s, .error (.unauthorized "Old password is incorrect"))
      else
        (updateById s auth.id (setPasswordAndClearRefresh (.ofPassword newPassword 10)),
         .ok "Password changed successfully")

/-! ## Registration (AuthService.register)

Creation is asynchronous: the command handler persists the record at
some point after the command is issued.  The environment records, in
milliseconds after the command, when the auth record and the profile
become visible to the repositories; `register` sleeps a fixed
`registerWaitMs` and performs a single `findById`. -/

structure Profile where
  id : String
  authId : String
  name : String
  lastname : String
  age : Nat
deriving DecidableEq, Repr

structure RegisterEnv where
  createdAuth : AuthUser
  authVisibleAt : Nat
  createdProfile : Option Profile
  profileVisibleAt : Nat
deriving DecidableEq, Repr

/-- The fixed delay of `await new Promise((resolve) => setTimeout(resolve, 100))`. -/
def registerWaitMs : Nat := 100

structure RegisterResult where
  access_token : Jwt
  refresh_token : Jwt
  profile : Option Profile
deriving DecidableEq, Repr

instance {ε α : Type} [DecidableEq ε] [DecidableEq α] : DecidableEq (Except ε α) := fun a b =>
  match a, b with
  | .error x, .error y =>
    if h : x = y then isTrue (by rw [h]) else isFalse (by intro hh; cases hh; exact h rfl)
  | .error _, .ok _ => isFalse (by intro h; cases h)
  | .ok _, .error _ => isFalse (by intro h; cases h)
  | .ok x, .ok y =>
    if h : x = y then isTrue (by rw [h]) else isFalse (by intro hh; cases hh; exact h rfl)

structure RegisterOutcome where
  result : Except AppError RegisterResult
  persistedRefreshHash : Option BcryptHash
deriving DecidableEq, Repr

/-- Embeds `AuthService.register` after the creation command has been
issued: wait exactly `registerWaitMs`, perform one `findById`, throw
`Error('Registration failed - user not found after creation')` when the
record is not yet visible; otherwise issue the token pair, persist the
bcrypt hash of the new refresh token, and attach the profile when it is
already visible (`null` otherwise — its absence is tolerated). -/
def register (env : RegisterEnv) (now : Nat) : RegisterOutcome :=
  if registerWaitMs < env.authVisibleAt then
    ⟨.error (.jsError "Registration failed - user not found after creation"), none⟩
  else
    let auth := env.createdAuth
    let pair := generateTokens auth now
    let hashed := BcryptHash.ofToken pair.refresh_token 10
    let profile := if registerWaitMs < env.profileVisibleAt then none else env.createdProfile
    ⟨.ok ⟨pair.access_token, pair.refresh_token, profile⟩, some hashed⟩

/-! ## Registration saga (src/application/auth/sagas/registration.saga.ts)

The event and command classes are plain data carriers constructed
positionally (`new AuthUserCreatedEvent(authId, profileId, firstName,
lastName, age)` in the command handlers; the saga reads the third and
fourth fields as `name`/`lastname`).  `otherEvent` stands for any event
type on the bus that neither `ofType` filter selects. -/

inductive DomainEvent where
  | authUserCreated (authId profileId name lastname : String) (age : Nat)
  | profileCreationFailed (authId profileId errMsg : String)
  | otherEvent (tag : String)
deriving DecidableEq, Repr

inductive SagaCommand where
  | createProfile (profileId authId name lastname : String) (age : Nat)
  | deleteAuthUser (authId profileId : String)
deriving DecidableEq, Repr

/-- Embeds the `userCreated` saga stream: `ofType(AuthUserCreatedEvent)`
followed by `map` to `CreateProfileCommand(profileId, authId, name,
lastname, age)`. -/
def userCreatedProjection : DomainEvent → Option SagaCommand
  | .authUserCreated authId profileId name lastname age =>
      some (.createProfile profileId authId name lastname age)
  | _ => none

/-- Embeds the `profileCreationFailed` saga stream:
`ofType(ProfileCreationFailedEvent)` followed by `map` to
`DeleteAuthUserCommand(authId, profileId)`. -/
def profileCreationFailedProjection : DomainEvent → Option SagaCommand
  | .profileCreationFailed authId profileId _ => some (.deleteAuthUser authId profileId)
  | _ => none

/-- Commands emitted by the whole `RegistrationSaga` for a stream of
events: each of its two `@Saga()` members filters and maps the event
stream independently. -/
def registrationSaga (events : List DomainEvent) : List SagaCommand :=
  events.filterMap userCreatedProjection ++ events.filterMap profileCreationFailedProjection

/-! ## JWKS token validation (JWKSTokenValidationService and the mobile
Google flow around it)

The shape of a decoded Google ID token: structural well-formedness, key
membership in the fetched JWKS, signature validity and expiry are
recorded as booleans, the claims as optional strings. -/

structure GoogleIdToken where
  wellFormed : Bool
  keyInJwks : Bool
  signatureValid : Bool
  expired : Bool
  issuer : String
  aud : String
  sub : Option String := none
  email : Option String := none
  given_name : Option String := none
  family_name : Option String := none
  nameClaim : Option String := none
  picture : Option String := none
  nonce : Option String := none
deriving DecidableEq, Repr

def GOOGLE_ISSUERS : List String := ["https://accounts.google.com", "accounts.google.com"]

/-- Modelled from the spec: the external `jose` `jwtVerify` call (the
library itself is not part of this repository).  Per §4.2 it verifies
the token format, the signature against the published key set, expiry,
the issuer allow-list and the expected audience, surfacing the error
taxonomy (`InvalidTokenFormat`, `NoMatchingKey`, `SignatureInvalid`,
`TokenExpired`, `IssuerInvalid`, `AudienceInvalid`) as the distinct
error codes that `verifyIdToken`'s catch block distinguishes. -/
def joseJwtVerify (tok : GoogleIdToken) (issuers : List String) (audience : String) :
    Except String GoogleIdToken :=
  if tok.wellFormed = false then .error "ERR_JWT_INVALID"
  else if tok.keyInJwks = false then .error "ERR_JWKS_NO_MATCHING_KEY"
  else if tok.signatureValid = false then .error "ERR_JWT_SIGNATURE_VERIFICATION_FAILED"
  else if tok.expired then .error "ERR_JWT_EXPIRED"
  else if issuers.contains tok.issuer = false then .error "ERR_JWT_ISSUER_INVALID"
  else if tok.aud ≠ audience then .error "ERR_JWT_AUDIENCE_INVALID"
  else .ok tok

/-- JavaScript truthiness of an optional string claim. -/
def truthyOpt : Option String → Bool
  | none => false
  | some s => s ≠ ""

/-- Denotation of `String.prototype.split` with a one-character
separator: the list of (possibly empty) chunks between occurrences of
the separator; the empty string yields one empty chunk. -/
def splitOnChar (sep : Char) : List Char → List (List Char)
  | [] => [[]]
  | c :: rest =>
    match splitOnChar sep rest with
    | [] => [[c]]
    | h :: t => if c = sep then [] :: h :: t else (c :: h) :: t

/-- Denotation of `Array.prototype.join` with a one-character
separator. -/
def joinChar (sep : Char) : List (List Char) → List Char
  | [] => []
  | [l] => l
  | l :: rest => l ++ sep :: joinChar sep rest

/-- Denotation of `Array.prototype.join` with an arbitrary separator
string. -/
def joinSep (sep : List Char) : List (List Char) → List Char
  | [] => []
  | [l] => l
  | l :: rest => l ++ sep ++ joinSep sep rest

/-- Does `pat` occur at the head of `s`? -/
def startsWithList : List Char → List Char → Bool
  | _, [] => true
  | [], _ :: _ => false
  | c :: s, p :: ps => c = p && startsWithList s ps

/-- Does `pat` occur anywhere in `s`?  Denotation of
`String.prototype.includes`. -/
def containsList (s pat : List Char) : Bool :=
  match s with
  | [] => pat.isEmpty
  | _ :: rest => startsWithList s pat || containsList rest pat

/-- Denotation of the email regex `^[^\s@]+@[^\s@]+\.[^\s@]+$`: exactly
one `@`, a non-empty whitespace-free local part, and a whitespace-free
domain containing an interior dot. -/
def emailRegexTest (s : String) : Bool :=
  match splitOnChar '@' s.data with
  | [localPart, domain] =>
    !localPart.isEmpty && localPart.all (fun c => !c.isWhitespace) &&
      domain.all (fun c => !c.isWhitespace) &&
      (domain.drop 1).dropLast.contains '.'
  | _ => false

/-- Embeds `JWKSTokenValidationService.validateRequiredClaims`. -/
def validateRequiredClaims (tok : GoogleIdToken) : Except AppError Unit :=
  let missing := (if truthyOpt tok.sub then [] else ["sub"]) ++
    (if truthyOpt tok.email then [] else ["email"])
  if missing.isEmpty = false then
    .error (.unauthorized ("Missing required claims: " ++
      String.mk (joinSep [',', ' '] (missing.map String.data))))
  else if emailRegexTest (tok.email.getD "") = false then
    .error (.unauthorized "Invalid email format in ID token")
  else if strBlank (tok.sub.getD "") then
    .error (.unauthorized "Invalid subject claim in ID token")
  else
    .ok ()

structure GoogleUserInfo where
  googleId : String
  email : String
  firstName : String
  lastName : String
  picture : String
deriving DecidableEq, Repr

/-- `String(name).split(' ').slice(1).join(' ')` on the composite name
claim. -/
def lastNameFromName (name : String) : String :=
  String.mk (joinChar ' ' ((splitOnChar ' ' name.data).drop 1))

/-- User info extraction of `verifyIdToken` once all checks passed. -/
def extractGoogleUserInfo (tok : GoogleIdToken) : GoogleUserInfo :=
  let lastName :=
    match tok.family_name with
    | some s => s
    | none => if truthyOpt tok.nameClaim then lastNameFromName (tok.nameClaim.getD "") else ""
  { googleId := tok.sub.getD ""
    email := tok.email.getD ""
    firstName :=
      if truthyOpt tok.given_name then tok.given_name.getD ""
      else if truthyOpt tok.nameClaim then tok.nameClaim.getD ""
      else "Google User"
    lastName := lastName
    picture := if truthyOpt tok.picture then tok.picture.getD "" else "" }

/-- Failures raised inside the `try` block of `verifyIdToken`: either an
HTTP exception thrown directly, or a `jose` error identified by its
code. -/
inductive VerifyRaise where
  | http (e : AppError)
  | jose (code : String)
deriving DecidableEq, Repr

/-- Per-platform audience configuration (`MobileOAuthConfigService`):
`""` models a missing `GOOGLE_*_CLIENT_ID` environment variable, since
the service stores `clientId || ''` and treats the empty string as
unconfigured. -/
structure MobileOAuthConfig where
  iosClientId : String
  androidClientId : String
deriving DecidableEq, Repr

def MobileOAuthConfig.audienceFor (cfg : MobileOAuthConfig) (platform : String) : String :=
  if platform = "ios" then cfg.iosClientId
  else cfg.androidClientId

/-- Embeds `MobileOAuthConfigService.getAudience`. -/
def getAudience (cfg : MobileOAuthConfig) (platform : String) : Except AppError String :=
  let audience := cfg.audienceFor platform
  if audience = "" then
    .error (.badRequest ("Google OAuth audience for " ++ platform ++ " is not configured"))
  else
    .ok audience

/-- Embeds `MobileOAuthConfigService.isPlatformConfigured`. -/
def isPlatformConfigured (cfg : MobileOAuthConfig) (platform : String) : Bool :=
  cfg.audienceFor platform ≠ ""

/-- Body of the `try` block of
`JWKSTokenValidationService.verifyIdToken`. -/
def verifyIdTokenTry (jwksInitialized : Bool) (cfg : MobileOAuthConfig) (platform : String)
    (tok : GoogleIdToken) (expectedNonce : Option String) :
    Except VerifyRaise GoogleUserInfo :=
  if jwksInitialized = false then .error (.http (.unauthorized "JWKS not initialized"))
  else
    match getAudience cfg platform with
    | .error e => .error (.http e)
    | .ok audience =>
      match joseJwtVerify tok GOOGLE_ISSUERS audience with
      | .error code => .error (.jose code)
      | .ok payload =>
        match validateRequiredClaims payload with
        | .error e => .error (.http e)
        | .ok _ =>
          match expectedNonce with
          | some n =>
            if truthyOpt payload.nonce = false then
              .error (.http (.unauthorized "Nonce is required but not present in token"))
            else if payload.nonce.getD "" ≠ n then
              .error (.http (.unauthorized "Invalid nonce value - possible replay attack"))
            else
              .ok (extractGoogleUserInfo payload)
          | none => .ok (extractGoogleUserInfo payload)

/-- Embeds `JWKSTokenValidationService.verifyIdToken` with its `catch`
block: HTTP exceptions are rethrown unchanged, `jose` error codes are
remapped to distinguishable `UnauthorizedException` messages, and every
other failure becomes the generic suffix message. -/
def verifyIdToken (jwksInitialized : Bool) (cfg : MobileOAuthConfig) (platform : String)
    (tok : GoogleIdToken) (expectedNonce : Option String) :
    Except AppError GoogleUserInfo :=
  match verifyIdTokenTry jwksInitialized cfg platform tok expectedNonce with
  | .ok u => .ok u
  | .error (.http e) => .error e
  | .error (.jose code) =>
    if code = "ERR_JWT_EXPIRED" then .error (.unauthorized "ID token has expired")
    else if code = "ERR_JWT_INVALID" then .error (.unauthorized "Invalid ID token format")
    else if code = "ERR_JWT_SIGNATURE_VERIFICATION_FAILED" then
      .error (.unauthorized "ID token signature verification failed")
    else if code = "ERR_JWT_AUDIENCE_INVALID" then
      .error (.unauthorized "ID token audience mismatch")
    else if code = "ERR_JWT_ISSUER_INVALID" then
      .error (.unauthorized "ID token issuer invalid")
    else if code = "ERR_JWKS_NO_MATCHING_KEY" then
      .error (.unauthorized "No matching key found in JWKS")
    else .error (.unauthorized ("ID token verification failed: " ++ code))

/-- Substring test, the denotation of `String.prototype.includes`. -/
def strIncludes (s pat : String) : Bool :=
  containsList s.data pat.data

/-- Embeds the `catch` block of
`MobileTokenValidationService.validateIdToken`: HTTP exceptions are
rethrown, the domain message `ID token is required` becomes a
`BadRequestException`, everything else collapses to
`UnauthorizedException('Invalid ID token')`. -/
def validateIdTokenCatch (e : VerifyRaise) : AppError :=
  match e with
  | .http err => err
  | .jose _ => .unauthorized "Invalid ID token"

/-- Embeds `MobileTokenValidationService.validateIdToken` for an already
initialised JWKS: the domain format check, then `verifyIdToken`, whose
`UnauthorizedException`s pass through the catch unchanged. -/
def validateIdToken (jwksInitialized : Bool) (cfg : MobileOAuthConfig) (platform : String)
    (rawIdToken : String) (tok : GoogleIdToken) (nonce : Option String) :
    Except AppError GoogleUserInfo :=
  if strBlank rawIdToken then .error (.badRequest "ID token is required")
  else if jwksInitialized = false then
    .error (.unauthorized "Unable to initialize JWT validation service")
  else
    match verifyIdToken jwksInitialized cfg platform tok nonce with
    | .error e => .error e
    | .ok info =>
      if truthyOpt (some info.googleId) = false then
        .error (.unauthorized "Invalid user data: missing subject")
      else if truthyOpt (some info.email) = false then
        .error (.unauthorized "Invalid user data: missing email")
      else if emailRegexTest info.email = false then
        .error (.unauthorized "Invalid email format in user data")
      else .ok info

/-- Embeds the error translation of the `catch` block of
`AuthService.mobileGoogleAuth`: the four domain messages become
`BadRequestException`s, HTTP exceptions are rethrown unchanged, and any
other failure becomes `UnauthorizedException('Mobile authentication
failed')`. -/
def mobileGoogleAuthCatch (e : AppError) : AppError :=
  match e with
  | .jsError m =>
    if strIncludes m "Unsupported platform" ||
        strIncludes m "Cannot provide both idToken and code" ||
        strIncludes m "Either idToken or code must be provided" ||
        strIncludes m "Code verifier is required" then
      .badRequest m
    else .unauthorized "Mobile authentication failed"
  | .badRequest m => .badRequest m
  | .unauthorized m => .unauthorized m
  | _ => .unauthorized "Mobile authentication failed"

/-- Embeds the ID-token flow of `AuthService.mobileGoogleAuth` up to and
including provider-token verification (the downstream find-or-create
path runs only on verification success): domain validation of the
request shape, the platform-configured check, then
`mobileTokenValidation.validateIdToken`, with the surrounding `catch`
translating failures. -/
def mobileGoogleAuthVerify (jwksInitialized : Bool) (cfg : MobileOAuthConfig)
    (platform : String) (rawIdToken : String) (tok : GoogleIdToken) :
    Except AppError GoogleUserInfo :=
  match validateMobileOAuthData ⟨platform, some rawIdToken, none, none⟩ with
  | .error m => .error (mobileGoogleAuthCatch (.jsError m))
  | .ok _ =>
    if isPlatformConfigured cfg platform = false then
      .error (mobileGoogleAuthCatch
        (.badRequest ("Google OAuth not configured for " ++ platform)))
    else
      match validateIdToken jwksInitialized cfg platform rawIdToken tok none with
      | .error e => .error (mobileGoogleAuthCatch e)
      | .ok info => .ok info

/-! ## Encryption utility (src/infrastructure/utils/encryption.util.ts) -/

/-- Value of a single hex digit, `none` for a non-hex character. -/
def hexVal (c : Char) : Option Nat :=
  if '0' ≤ c ∧ c ≤ '9' then some (c.toNat - '0'.toNat)
  else if 'a' ≤ c ∧ c ≤ 'f' then some (c.toNat - 'a'.toNat + 10)
  else if 'A' ≤ c ∧ c ≤ 'F' then some (c.toNat - 'A'.toNat + 10)
  else none

/-- Denotation of `Buffer.from(s, 'hex')`: decode hex pairs from the
left, stopping (without error) at the first invalid pair or at a
dangling odd character. -/
def hexDecode : List Char → List Nat
  | c1 :: c2 :: rest =>
    match hexVal c1, hexVal c2 with
    | some h, some l => (16 * h + l) :: hexDecode rest
    | _, _ => []
  | _ => []

/-- Embeds `decrypt`.  The AES-256-CBC decipher is abstracted as an
oracle `aes iv ct` returning `none` when `createDecipheriv`/`update`/
`final` would throw (bad key/iv/padding) and the recovered plaintext
otherwise; the source catches every such throw and returns the input
text unchanged, as it also does when the input does not consist of
exactly two `:`-separated parts. -/
def decrypt (aes : List Nat → List Nat → Option String) (text : String) : String :=
  let parts := splitOnChar ':' text.data
  if parts.length ≠ 2 then text
  else
    let iv := hexDecode (parts.headD [])
    let ct := hexDecode (parts.getD 1 [])
    if iv.length ≠ 16 then text
    else
      match aes iv ct with
      | none => text
      | some plain => plain

/-! ## Helper lemmas -/

lemma charIsLower_iff (c : Char) : c.isLower = true ↔ ('a' ≤ c ∧ c ≤ 'z') := by
  simp [Char.isLower, Char.le_def]

lemma charIsUpper_iff (c : Char) : c.isUpper = true ↔ ('A' ≤ c ∧ c ≤ 'Z') := by
  simp [Char.isUpper, Char.le_def]

lemma charIsDigit_iff (c : Char) : c.isDigit = true ↔ ('0' ≤ c ∧ c ≤ '9') := by
  simp [Char.isDigit, Char.le_def]

lemma isPasswordBodyChar_iff (c : Char) :
    isPasswordBodyChar c = true ↔
      (('a' ≤ c ∧ c ≤ 'z') ∨ ('A' ≤ c ∧ c ≤ 'Z') ∨ ('0' ≤ c ∧ c ≤ '9')
        ∨ c = '@' ∨ c = '$' ∨ c = '!' ∨ c = '%' ∨ c = '*' ∨ c = '?' ∨ c = '&') := by
  simp [isPasswordBodyChar, isPasswordSpecialChar, charIsLower_iff, charIsUpper_iff,
    charIsDigit_iff, or_assoc]

lemma codeVerifierChar_not_ws (c : Char) (h : isCodeVerifierChar c = true) :
    c.isWhitespace = false := by
  cases hw : c.isWhitespace
  · rfl
  · exfalso
    have hc : c = ' ' ∨ c = '\t' ∨ c = '\r' ∨ c = '\n' := by
      simpa [Char.isWhitespace, or_assoc] using hw
    rcases hc with h1 | h1 | h1 | h1 <;> subst h1 <;> revert h <;> decide

lemma strBlank_false_of_charset (s : String) (h43 : 43 ≤ s.length)
    (hall : ∀ c ∈ s.data, isCodeVerifierChar c = true) : strBlank s = false := by
  have hlen : s.data.length = s.length := rfl
  have hne : s.data ≠ [] := List.ne_nil_of_length_pos (by omega)
  obtain ⟨c, hc⟩ := List.exists_mem_of_ne_nil s.data hne
  cases hb : strBlank s
  · rfl
  · exfalso
    have hws : c.isWhitespace = true := List.all_eq_true.mp hb c hc
    rw [codeVerifierChar_not_ws c (hall c hc)] at hws
    cases hws

lemma findById_id (s : AuthStore) (i : String) (u : AuthUser) (h : findById s i = some u) :
    u.id = i := by
  have := List.find?_some h
  simpa using this

lemma findById_updateById (s : AuthStore) (i : String) (f : AuthUser → AuthUser)
    (hf : ∀ u, (f u).id = u.id) :
    findById (updateById s i f) i = (findById s i).map f := by
  induction s with
  | nil => rfl
  | cons u t ih =>
    by_cases h : u.id = i
    · have hfu : (f u).id = i := by rw [hf]; exact h
      simp [updateById, findById, h, hfu]
    · simp only [updateById, List.map_cons, if_neg h, findById]
      rw [List.find?_cons_of_neg _ (by simpa using h), List.find?_cons_of_neg _ (by simpa using h)]
      exact ih

lemma findById_updateById_ne (s : AuthStore) (i j : String) (f : AuthUser → AuthUser)
    (hf : ∀ u, (f u).id = u.id) (hne : j ≠ i) :
    findById (updateById s i f) j = findById s j := by
  induction s with
  | nil => rfl
  | cons u t ih =>
    by_cases h : u.id = i
    · have hfu : (f u).id ≠ j := by rw [hf, h]; exact fun hh => hne hh.symm
      have huj : u.id ≠ j := by rw [h]; exact fun hh => hne hh.symm
      simp only [updateById, List.map_cons, if_pos h, findById]
      rw [List.find?_cons_of_neg _ (by simpa using hfu),
        List.find?_cons_of_neg _ (by simpa using huj)]
      exact ih
    · by_cases hj : u.id = j
      · simp only [updateById, List.map_cons, if_neg h, findById]
        rw [List.find?_cons_of_pos _ (by simpa using hj),
          List.find?_cons_of_pos _ (by simpa using hj)]
      · simp only [updateById, List.map_cons, if_neg h, findById]
        rw [List.find?_cons_of_neg _ (by simpa using hj),
          List.find?_cons_of_neg _ (by simpa using hj)]
        exact ih

lemma unsupported_platform_msg_ne (p m : String) (hm : m.data.take 2 ≠ ['U', 'n']) :
    ("Unsupported platform: " ++ p) ≠ m := by
  intro h
  apply hm
  rw [← h, String.data_append]
  rfl

lemma getAudience_ok (cfg : MobileOAuthConfig) (platform a : String)
    (h : getAudience cfg platform = .ok a) : a = cfg.audienceFor platform := by
  unfold getAudience at h
  dsimp only at h
  split_ifs at h with h1
  simpa using h.symm

lemma joseJwtVerify_ok_inversion (tok : GoogleIdToken) (issuers : List String) (aud : String)
    (p : GoogleIdToken) (h : joseJwtVerify tok issuers aud = .ok p) :
    p = tok ∧ tok.wellFormed = true ∧ tok.keyInJwks = true ∧ tok.signatureValid = true
      ∧ tok.expired = false ∧ issuers.contains tok.issuer = true ∧ tok.aud = aud := by
  unfold joseJwtVerify at h
  split_ifs at h with h1 h2 h3 h4 h5 h6
  have hpe : tok = p := by simpa using h
  subst hpe
  refine ⟨rfl, ?_, ?_, ?_, ?_, ?_, ?_⟩
  · cases hx : tok.wellFormed
    · exact absurd hx h1
    · rfl
  · cases hx : tok.keyInJwks
    · exact absurd hx h2
    · rfl
  · cases hx : tok.signatureValid
    · exact absurd hx h3
    · rfl
  · cases hx : tok.expired
    · rfl
    · exact absurd hx h4
  · cases hx : issuers.contains tok.issuer
    · exact absurd hx h5
    · rfl
  · by_contra hx
    exact h6 hx

/-! ## Claim theorems -/

/-- C5 (counterexample): the string `Aa1#aaaa` is at least eight
characters long and contains an uppercase letter, a lowercase letter and
a digit, yet `isPasswordValid` returns `false` on it, because its regex
additionally restricts every character to the class `[a-zA-Z\d@$!%*?&]`,
which excludes `#`. -/
theorem isPasswordValid_claim_counterexample :
    (8 ≤ ("Aa1#aaaa" : String).length
      ∧ (∃ c ∈ ("Aa1#aaaa" : String).data, 'A' ≤ c ∧ c ≤ 'Z')
      ∧ (∃ c ∈ ("Aa1#aaaa" : String).data, 'a' ≤ c ∧ c ≤ 'z')
      ∧ (∃ c ∈ ("Aa1#aaaa" : String).data, '0' ≤ c ∧ c ≤ '9'))
    ∧ isPasswordValid "Aa1#aaaa" = false := by decide

/-- C5 (amended): `isPasswordValid` returns `true` exactly when the
password is at least 8 characters long, every character belongs to the
class of letters, digits and the specials `@$!%*?&`, and it contains at
least one lowercase letter, one uppercase letter and one digit. -/
theorem isPasswordValid_amended (s : String) :
    isPasswordValid s = true ↔
      (8 ≤ s.length
        ∧ (∀ c ∈ s.data, ('a' ≤ c ∧ c ≤ 'z') ∨ ('A' ≤ c ∧ c ≤ 'Z') ∨ ('0' ≤ c ∧ c ≤ '9')
            ∨ c = '@' ∨ c = '$' ∨ c = '!' ∨ c = '%' ∨ c = '*' ∨ c = '?' ∨ c = '&')
        ∧ (∃ c ∈ s.data, 'a' ≤ c ∧ c ≤ 'z')
        ∧ (∃ c ∈ s.data, 'A' ≤ c ∧ c ≤ 'Z')
        ∧ (∃ c ∈ s.data, '0' ≤ c ∧ c ≤ '9')) := by
  simp only [isPasswordValid, Bool.and_eq_true, List.all_eq_true, List.any_eq_true,
    decide_eq_true_eq, isPasswordBodyChar_iff, charIsLower_iff, charIsUpper_iff,
    charIsDigit_iff, and_assoc]

/-- C5 (witness): the amended characterisation evaluated at the concrete
password `Secret123`. -/
theorem isPasswordValid_amended_witness :
    8 ≤ ("Secret123" : String).length
      ∧ (∀ c ∈ ("Secret123" : String).data,
          ('a' ≤ c ∧ c ≤ 'z') ∨ ('A' ≤ c ∧ c ≤ 'Z') ∨ ('0' ≤ c ∧ c ≤ '9')
            ∨ c = '@' ∨ c = '$' ∨ c = '!' ∨ c = '%' ∨ c = '*' ∨ c = '?' ∨ c = '&')
      ∧ (∃ c ∈ ("Secret123" : String).data, 'a' ≤ c ∧ c ≤ 'z')
      ∧ (∃ c ∈ ("Secret123" : String).data, 'A' ≤ c ∧ c ≤ 'Z')
      ∧ (∃ c ∈ ("Secret123" : String).data, '0' ≤ c ∧ c ≤ '9') :=
  (isPasswordValid_amended "Secret123").mp (by decide)

/-- C7: `validateCodeVerifierFormat` accepts exactly the strings whose
length lies in `[43, 128]` and whose every character is in
`[A-Za-z0-9\-._~]` (such strings are automatically non-blank); moreover
it accepts concrete 43- and 128-character strings of that charset, and
rejects — with an error value, not a crash — a 42-character string and a
string containing `+`. -/
theorem validateCodeVerifierFormat_spec (s : String) :
    (validateCodeVerifierFormat s = .ok () ↔
      (43 ≤ s.length ∧ s.length ≤ 128 ∧ ∀ c ∈ s.data, isCodeVerifierChar c = true))
    ∧ validateCodeVerifierFormat (String.mk (List.replicate 43 'a')) = .ok ()
    ∧ validateCodeVerifierFormat (String.mk (List.replicate 128 'a')) = .ok ()
    ∧ validateCodeVerifierFormat (String.mk (List.replicate 42 'a')) =
        .error "Code verifier must be between 43 and 128 characters"
    ∧ validateCodeVerifierFormat (String.mk (List.replicate 42 'a' ++ ['+'])) =
        .error "Code verifier contains invalid characters" := by
  refine ⟨?_, by decide, by decide, by decide, by decide⟩
  constructor
  · intro h
    simp only [validateCodeVerifierFormat] at h
    split_ifs at h with h1 h2 h3
    all_goals simp at h
    push_neg at h2
    have h3t : codeVerifierCharsetTest s = true := by
      cases h4 : codeVerifierCharsetTest s
      · exact absurd h4 h3
      · rfl
    have hparts : ¬s.data = [] ∧ ∀ x ∈ s.data, isCodeVerifierChar x = true := by
      simpa [codeVerifierCharsetTest] using h3t
    exact ⟨by omega, by omega, hparts.2⟩
  · rintro ⟨h43, h128, hall⟩
    have hb := strBlank_false_of_charset s h43 hall
    have hcs : codeVerifierCharsetTest s = true := by
      have hlen : s.data.length = s.length := rfl
      have hne : s.data ≠ [] := List.ne_nil_of_length_pos (by omega)
      simp [codeVerifierCharsetTest, List.all_eq_true.mpr hall, hne]
    simp [validateCodeVerifierFormat, hb, hcs]
    omega

/-- C7 (witness): the characterisation applied to the concrete
43-character string of `a`s. -/
theorem validateCodeVerifierFormat_spec_witness :
    43 ≤ (String.mk (List.replicate 43 'a')).length
      ∧ (String.mk (List.replicate 43 'a')).length ≤ 128
      ∧ ∀ c ∈ (String.mk (List.replicate 43 'a')).data, isCodeVerifierChar c = true :=
  (validateCodeVerifierFormat_spec (String.mk (List.replicate 43 'a'))).1.mp (by decide)

/-- C3: the Registration Saga is two stateless per-event projections:
every `AuthUserCreatedEvent` yields exactly one `CreateProfileCommand`
carrying that event's `profileId`, `authId`, `name` (first name),
`lastname` and `age` in that order; every `ProfileCreationFailedEvent`
yields exactly one `DeleteAuthUserCommand` carrying its `authId` and
`profileId`; any other event yields no command, and no single event ever
yields more than one command. -/
theorem registrationSaga_two_projections (authId profileId name lastname errMsg tag : String)
    (age : Nat) :
    registrationSaga [.authUserCreated authId profileId name lastname age] =
      [.createProfile profileId authId name lastname age]
    ∧ registrationSaga [.profileCreationFailed authId profileId errMsg] =
      [.deleteAuthUser authId profileId]
    ∧ registrationSaga [.otherEvent tag] = []
    ∧ (∀ ev : DomainEvent, (registrationSaga [ev]).length ≤ 1) := by
  refine ⟨rfl, rfl, rfl, ?_⟩
  intro ev
  cases ev <;> simp [registrationSaga, userCreatedProjection, profileCreationFailedProjection]

/-- C6: `validateMobileOAuthData` accepts exactly when the platform is
supported, exactly one of `idToken`/`code` is present (non-blank), and a
present `code` comes with a present `code_verifier`; the
both-present, neither-present, code-without-verifier and
unsupported-platform cases each fail with their own message, and all
four messages are pairwise distinct. -/
theorem validateMobileOAuthData_spec (d : MobileOAuthData) :
    (validateMobileOAuthData d = .ok () ↔
      (isPlatformSupported d.platform = true
        ∧ hasPresent d.idToken ≠ hasPresent d.code
        ∧ (hasPresent d.code = true → hasPresent d.code_verifier = true)))
    ∧ (isPlatformSupported d.platform = false →
        validateMobileOAuthData d = .error ("Unsupported platform: " ++ d.platform))
    ∧ (isPlatformSupported d.platform = true → hasPresent d.idToken = true →
        hasPresent d.code = true →
        validateMobileOAuthData d =
          .error "Cannot provide both idToken and code. Choose one authentication method.")
    ∧ (isPlatformSupported d.platform = true → hasPresent d.idToken = false →
        hasPresent d.code = false →
        validateMobileOAuthData d = .error "Either idToken or code must be provided")
    ∧ (isPlatformSupported d.platform = true → hasPresent d.idToken = false →
        hasPresent d.code = true → hasPresent d.code_verifier = false →
        validateMobileOAuthData d =
          .error "Code verifier is required when using authorization code flow")
    ∧ (("Cannot provide both idToken and code. Choose one authentication method." : String) ≠
          "Either idToken or code must be provided"
        ∧ ("Cannot provide both idToken and code. Choose one authentication method." : String) ≠
          "Code verifier is required when using authorization code flow"
        ∧ ("Either idToken or code must be provided" : String) ≠
          "Code verifier is required when using authorization code flow")
    ∧ (∀ p : String,
        ("Unsupported platform: " ++ p) ≠
            "Cannot provide both idToken and code. Choose one authentication method."
          ∧ ("Unsupported platform: " ++ p) ≠ "Either idToken or code must be provided"
          ∧ ("Unsupported platform: " ++ p) ≠
            "Code verifier is required when using authorization code flow") := by
  refine ⟨?_, ?_, ?_, ?_, ?_, by decide, fun p =>
    ⟨unsupported_platform_msg_ne p _ (by decide), unsupported_platform_msg_ne p _ (by decide),
      unsupported_platform_msg_ne p _ (by decide)⟩⟩ <;>
    (cases hp : isPlatformSupported d.platform <;>
      cases hi : hasPresent d.idToken <;>
        cases hc : hasPresent d.code <;>
          cases hv : hasPresent d.code_verifier <;>
            simp [validateMobileOAuthData, hp, hi, hc, hv])

/-- C6 (witness): the two headline failure cases evaluated concretely —
both credentials present, and neither present — produce the two distinct
messages. -/
theorem validateMobileOAuthData_spec_witness :
    validateMobileOAuthData ⟨"ios", some "tok", some "code", none⟩ =
      .error "Cannot provide both idToken and code. Choose one authentication method." :=
  (validateMobileOAuthData_spec ⟨"ios", some "tok", some "code", none⟩).2.2.1
    (by decide) (by decide) (by decide)

/-- C10: `decrypt` is a total function that returns its input unchanged
whenever the input does not split into exactly two `:`-separated parts
(so legacy plaintext passes through), whenever the decoded IV is not 16
bytes, and whenever the AES decipher fails. -/
theorem decrypt_passthrough (aes : List Nat → List Nat → Option String) (text : String) :
    ((splitOnChar ':' text.data).length ≠ 2 → decrypt aes text = text)
    ∧ (∀ a b, splitOnChar ':' text.data = [a, b] →
        ((hexDecode a).length ≠ 16 → decrypt aes text = text)
        ∧ ((hexDecode a).length = 16 → aes (hexDecode a) (hexDecode b) = none →
            decrypt aes text = text)) := by
  constructor
  · intro h
    simp [decrypt, h]
  · intro a b hab
    constructor
    · intro h16
      simp [decrypt, hab, h16]
    · intro h16 hnone
      simp [decrypt, hab, h16, hnone]

/-- C10 (witness): a legacy plaintext value without the `iv:ciphertext`
shape passes through unchanged, under a decipher oracle that always
fails. -/
theorem decrypt_passthrough_witness :
    decrypt (fun _ _ => none) "hello world" = "hello world" :=
  (decrypt_passthrough (fun _ _ => none) "hello world").1 (by decide)

/-- C9: every failure inside `refreshToken` — whatever the internal
cause — reaches the caller as the single error
`Unauthorized('Invalid refresh token')`; in particular the more specific
internal errors `User not found` (unknown subject) and
`Refresh token revoked` (absent stored hash) are raised inside the `try`
and swallowed by the surrounding `catch`. -/
theorem refreshToken_uniform_unauthorized (s : AuthStore) (token : Jwt) (now : Nat) :
    (∀ e, refreshToken s token now = .error e → e = .unauthorized "Invalid refresh token")
    ∧ (∀ e, refreshTokenInner s token now = .error e →
        refreshToken s token now = .error (.unauthorized "Invalid refresh token"))
    ∧ (jwtVerify token JWT_REFRESH_SECRET now = .ok token.claims →
        findById s token.claims.sub = none →
        refreshTokenInner s token now = .error (.unauthorized "User not found"))
    ∧ (∀ auth, jwtVerify token JWT_REFRESH_SECRET now = .ok token.claims →
        findById s token.claims.sub = some auth →
        auth.currentHashedRefreshToken = none →
        refreshTokenInner s token now = .error (.unauthorized "Refresh token revoked")) := by
  refine ⟨?_, ?_, ?_, ?_⟩
  · intro e he
    cases h : refreshTokenInner s token now with
    | ok r => rw [refreshToken, h] at he; cases he
    | error e2 => rw [refreshToken, h] at he; cases he; rfl
  · intro e he
    rw [refreshToken, he]
  · intro hv hf
    simp [refreshTokenInner, hv, hf]
  · intro auth hv hf hn
    simp [refreshTokenInner, hv, hf, hn]

/-- C9 (witness): a structurally valid refresh token whose subject is
unknown (empty store) is answered with the uniform message. -/
theorem refreshToken_uniform_unauthorized_witness :
    refreshToken []
      ⟨⟨"a@b.com", "auth-1", [Role.user]⟩, "your-default-refresh-secret", 0, 604800⟩ 0 =
      .error (.unauthorized "Invalid refresh token") :=
  (refreshToken_uniform_unauthorized []
      ⟨⟨"a@b.com", "auth-1", [Role.user]⟩, "your-default-refresh-secret", 0, 604800⟩ 0).2.1
    (.unauthorized "User not found") (by decide)

/-- C4: `changePassword` rejects — returning an error and leaving the
store untouched — a new password failing the strength rule or equal to
the old one; with a valid pair it fails `NotFound` when the user is
absent and `Unauthorized('Old password is incorrect')` when the old
password does not verify against the stored hash (still without a
write); on success it persists the hash of the new password, clears the
stored refresh-token hash, and leaves every other field and every other
identity unchanged. -/
theorem changePassword_spec (s : AuthStore) (userId oldPassword newPassword : String) :
    ((isPasswordValid newPassword = false ∨ newPassword = oldPassword) →
      (changePassword s userId oldPassword newPassword).1 = s
        ∧ ∃ m, (changePassword s userId oldPassword newPassword).2 = .error (.jsError m))
    ∧ (validatePasswordChangeData oldPassword newPassword = .ok () →
        findById s userId = none →
        changePassword s userId oldPassword newPassword =
          (s, .error (.notFound "User not found")))
    ∧ (∀ auth, validatePasswordChangeData oldPassword newPassword = .ok () →
        findById s userId = some auth →
        bcryptComparePassword oldPassword auth.password = false →
        changePassword s userId oldPassword newPassword =
          (s, .error (.unauthorized "Old password is incorrect")))
    ∧ (∀ auth, validatePasswordChangeData oldPassword newPassword = .ok () →
        findById s userId = some auth →
        bcryptComparePassword oldPassword auth.password = true →
        (changePassword s userId oldPassword newPassword).2 = .ok "Password changed successfully"
          ∧ findById (changePassword s userId oldPassword newPassword).1 userId =
            some { auth with
              password := some (.ofPassword newPassword 10),
              currentHashedRefreshToken := none }
          ∧ (∀ j, j ≠ userId →
              findById (changePassword s userId oldPassword newPassword).1 j = findById s j)) := by
  refine ⟨?_, ?_, ?_, ?_⟩
  · intro h
    have hval : ∃ m, validatePasswordChangeData oldPassword newPassword = .error m := by
      by_cases hv : isPasswordValid newPassword = false
      · exact ⟨"Password must include at least one uppercase letter, one lowercase letter, and one number",
          by simp [validatePasswordChangeData, hv]⟩
      · simp only [Bool.not_eq_false] at hv
        rcases h with h | h
        · rw [h] at hv; cases hv
        · have hv2 : isPasswordValid oldPassword = true := h ▸ hv
          exact ⟨"New password must be different from old password",
            by simp [validatePasswordChangeData, hv2, h]⟩
    obtain ⟨m, hm⟩ := hval
    simp [changePassword, hm]
  · intro hval hf
    simp [changePassword, hval, hf]
  · intro auth hval hf hcmp
    simp [changePassword, hval, hf, hcmp]
  · intro auth hval hf hcmp
    have hid : auth.id = userId := findById_id s userId auth hf
    have hreduce : changePassword s userId oldPassword newPassword =
        (updateById s auth.id (setPasswordAndClearRefresh (.ofPassword newPassword 10)),
          .ok "Password changed successfully") := by
      simp [changePassword, hval, hf, hcmp]
    refine ⟨by rw [hreduce], ?_, ?_⟩
    · rw [hreduce, hid]
      dsimp only
      rw [findById_updateById s userId
        (setPasswordAndClearRefresh (.ofPassword newPassword 10)) (fun u => rfl), hf]
      simp [setPasswordAndClearRefresh, hid]
    · intro j hj
      rw [hreduce, hid]
      dsimp only
      exact findById_updateById_ne s userId j
        (setPasswordAndClearRefresh (.ofPassword newPassword 10)) (fun u => rfl) hj

/-- C4 (witness): a successful concrete password change. -/
theorem changePassword_spec_witness :
    (changePassword [⟨"auth-1", "a@b.com", some (.ofPassword "OldPass1" 10), [Role.user],
        none, none, none, none⟩]
      "auth-1" "OldPass1" "NewPass1").2 = .ok "Password changed successfully" :=
  ((changePassword_spec [⟨"auth-1", "a@b.com", some (.ofPassword "OldPass1" 10), [Role.user],
        none, none, none, none⟩] "auth-1" "OldPass1" "NewPass1").2.2.2
    ⟨"auth-1", "a@b.com", some (.ofPassword "OldPass1" 10), [Role.user],
        none, none, none, none⟩ (by decide) (by decide) (by decide)).1

/-- C2: the post-creation wait of `register` is a single fixed delay of
exactly `registerWaitMs = 100` milliseconds followed by one visibility
check — a strict upper bound on the total wait; the call fails (with the
distinct error `Registration failed - user not found after creation`,
rather than hanging or succeeding) exactly when the created record is
not visible within that bound, and otherwise issues the token pair,
persists the bcrypt hash of the returned refresh token, and returns the
profile as `null` when the profile is not yet visible. -/
theorem register_spec (env : RegisterEnv) (now : Nat) :
    registerWaitMs = 100
    ∧ ((∃ e, (register env now).result = .error e) ↔ registerWaitMs < env.authVisibleAt)
    ∧ (registerWaitMs < env.authVisibleAt →
        register env now =
          ⟨.error (.jsError "Registration failed - user not found after creation"), none⟩)
    ∧ (env.authVisibleAt ≤ registerWaitMs →
        register env now =
          ⟨.ok ⟨(generateTokens env.createdAuth now).access_token,
              (generateTokens env.createdAuth now).refresh_token,
              if registerWaitMs < env.profileVisibleAt then none else env.createdProfile⟩,
            some (.ofToken (generateTokens env.createdAuth now).refresh_token 10)⟩) := by
  refine ⟨rfl, ?_, ?_, ?_⟩
  · by_cases h : registerWaitMs < env.authVisibleAt
    · simp [register, h]
    · simp [register, h]
  · intro h
    simp [register, h]
  · intro h
    simp [register, Nat.not_lt.mpr h]

/-- C2 (witness): a record visible 50 ms after the command (within the
100 ms bound) whose profile is only visible after 1000 ms: registration
succeeds, the refresh-token hash is persisted, the profile is `null`. -/
theorem register_spec_witness :
    register ⟨⟨"auth-1", "a@b.com", some (.ofPassword "Secret123" 10), [Role.user],
        none, none, none, none⟩, 50, none, 1000⟩ 7 =
      ⟨.ok ⟨(generateTokens ⟨"auth-1", "a@b.com", some (.ofPassword "Secret123" 10), [Role.user],
            none, none, none, none⟩ 7).access_token,
          (generateTokens ⟨"auth-1", "a@b.com", some (.ofPassword "Secret123" 10), [Role.user],
            none, none, none, none⟩ 7).refresh_token,
          none⟩,
        some (.ofToken (generateTokens ⟨"auth-1", "a@b.com", some (.ofPassword "Secret123" 10),
          [Role.user], none, none, none, none⟩ 7).refresh_token 10)⟩ := by
  have h := (register_spec ⟨⟨"auth-1", "a@b.com", some (.ofPassword "Secret123" 10), [Role.user],
      none, none, none, none⟩, 50, none, 1000⟩ 7).2.2.2 (by decide)
  simpa using h

/-- C8: a Google ID token that is well formed, signed with a key of the
fetched JWKS, unexpired and issued by a known Google issuer, but whose
`aud` claim differs from the configured audience of the platform, makes
the mobile Google authentication flow fail with
`Unauthorized('ID token audience mismatch')` — a message distinct from
the generic invalid-token, expired, signature, issuer, missing-claims
and no-matching-key messages — and no token failing format, key,
signature, expiry, issuer or audience checks is ever answered with
success. -/
theorem mobileGoogleAuth_audience_mismatch (cfg : MobileOAuthConfig)
    (platform rawIdToken : String) (tok : GoogleIdToken)
    (hplat : isPlatformSupported platform = true)
    (hcfg : cfg.audienceFor platform ≠ "")
    (hraw : strBlank rawIdToken = false)
    (hwf : tok.wellFormed = true) (hkey : tok.keyInJwks = true)
    (hsig : tok.signatureValid = true) (hexp : tok.expired = false)
    (hiss : GOOGLE_ISSUERS.contains tok.issuer = true)
    (haud : tok.aud ≠ cfg.audienceFor platform) :
    mobileGoogleAuthVerify true cfg platform rawIdToken tok =
      .error (.unauthorized "ID token audience mismatch")
    ∧ (∀ info, mobileGoogleAuthVerify true cfg platform rawIdToken tok ≠ .ok info)
    ∧ (("ID token audience mismatch" : String) ≠ "Invalid ID token format"
        ∧ ("ID token audience mismatch" : String) ≠ "ID token has expired"
        ∧ ("ID token audience mismatch" : String) ≠ "ID token signature verification failed"
        ∧ ("ID token audience mismatch" : String) ≠ "ID token issuer invalid"
        ∧ ("ID token audience mismatch" : String) ≠ "No matching key found in JWKS"
        ∧ ("ID token audience mismatch" : String) ≠ "Missing required claims: sub, email"
        ∧ ("ID token audience mismatch" : String) ≠ "Invalid ID token"
        ∧ ("ID token audience mismatch" : String) ≠ "Mobile authentication failed")
    ∧ (∀ tok2 : GoogleIdToken, ∀ nonce : Option String,
        (tok2.wellFormed = false ∨ tok2.keyInJwks = false ∨ tok2.signatureValid = false
          ∨ tok2.expired = true ∨ GOOGLE_ISSUERS.contains tok2.issuer = false
          ∨ tok2.aud ≠ cfg.audienceFor platform) →
        ∀ info, verifyIdToken true cfg platform tok2 nonce ≠ .ok info) := by
  have hmain : mobileGoogleAuthVerify true cfg platform rawIdToken tok =
      .error (.unauthorized "ID token audience mismatch") := by
    have hv : validateMobileOAuthData ⟨platform, some rawIdToken, none, none⟩ = .ok () := by
      simp [validateMobileOAuthData, hplat, hasPresent, hraw]
    have hiss2 : tok.issuer ∈ GOOGLE_ISSUERS := by simpa using hiss
    have hjose : joseJwtVerify tok GOOGLE_ISSUERS (cfg.audienceFor platform) =
        .error "ERR_JWT_AUDIENCE_INVALID" := by
      simp [joseJwtVerify, hwf, hkey, hsig, hexp, hiss2, haud]
    simp [mobileGoogleAuthVerify, hv, isPlatformConfigured, hcfg, validateIdToken, hraw,
      verifyIdToken, verifyIdTokenTry, getAudience, hcfg, hjose, validateIdTokenCatch,
      mobileGoogleAuthCatch]
  refine ⟨hmain, ?_, by decide, ?_⟩
  · intro info h
    rw [hmain] at h
    cases h
  · intro tok2 nonce hbad info hok
    unfold verifyIdToken at hok
    cases htry : verifyIdTokenTry true cfg platform tok2 nonce with
    | error e =>
      rw [htry] at hok
      cases e with
      | http e2 => cases hok
      | jose code =>
        revert hok
        dsimp only
        split_ifs <;> intro hok <;> cases hok
    | ok u =>
      rw [htry] at hok
      unfold verifyIdTokenTry at htry
      rw [if_neg (by simp)] at htry
      cases hga : getAudience cfg platform with
      | error e2 => simp [hga] at htry
      | ok a =>
        rw [hga] at htry
        dsimp only at htry
        cases hj : joseJwtVerify tok2 GOOGLE_ISSUERS a with
        | error code => simp [hj] at htry
        | ok p =>
          have hainv := getAudience_ok cfg platform a hga
          obtain ⟨hp, h1, h2, h3, h4, h5, h6⟩ :=
            joseJwtVerify_ok_inversion tok2 GOOGLE_ISSUERS a p hj
          subst hainv
          rcases hbad with hb | hb | hb | hb | hb | hb
          · rw [h1] at hb; cases hb
          · rw [h2] at hb; cases hb
          · rw [h3] at hb; cases hb
          · rw [h4] at hb; cases hb
          · rw [h5] at hb; cases hb
          · exact hb h6

/-- C8 (witness): a concrete well-signed unexpired Google-issued token
with the wrong audience for the configured iOS client. -/
theorem mobileGoogleAuth_audience_mismatch_witness :
    mobileGoogleAuthVerify true ⟨"ios-client", "android-client"⟩ "ios" "tok"
      ⟨true, true, true, false, "https://accounts.google.com", "wrong-aud",
        some "sub1", some "a@b.com", none, none, none, none, none⟩ =
      .error (.unauthorized "ID token audience mismatch") :=
  (mobileGoogleAuth_audience_mismatch ⟨"ios-client", "android-client"⟩ "ios" "tok"
    ⟨true, true, true, false, "https://accounts.google.com", "wrong-aud",
      some "sub1", some "a@b.com", none, none, none, none, none⟩
    (by decide) (by decide) (by decide) (by decide) (by decide) (by decide) (by decide)
    (by decide) (by decide)).1

lemma jwtVerify_ok_inversion (t : Jwt) (secret : String) (now : Nat) (p : JwtClaims)
    (h : jwtVerify t secret now = .ok p) :
    p = t.claims ∧ t.secret = secret ∧ ¬t.exp < now := by
  unfold jwtVerify at h
  split_ifs at h with h1 h2
  exact ⟨by simpa using h.symm, not_not.mp h1, h2⟩

/-- C1: a successful `refreshToken` call at instant `t1` (issuing tokens
whose `iat` is `t1`, so any token issued at another instant is a
different value) overwrites the stored refresh-token hash with the hash
of the newly issued refresh token — a hash matching only that token —
and a second `refreshToken` call presenting the previously accepted,
now stale, token fails with `Unauthorized('Invalid refresh token')` at
every later instant, even though the stale token's signature still
verifies. -/
theorem refreshToken_rotation (s : AuthStore) (tok : Jwt) (t1 t2 : Nat)
    (s2 : AuthStore) (pair : TokenPair)
    (h1 : refreshToken s tok t1 = .ok (s2, pair))
    (hiat : tok.iat ≠ t1) :
    (∃ auth2, findById s2 tok.claims.sub = some auth2
        ∧ auth2.currentHashedRefreshToken = some (.ofToken pair.refresh_token 10)
        ∧ ∀ t3 : Jwt, bcryptCompareToken t3 (.ofToken pair.refresh_token 10) = true ↔
            t3 = pair.refresh_token)
    ∧ tok ≠ pair.refresh_token
    ∧ refreshToken s2 tok t2 = .error (.unauthorized "Invalid refresh token") := by
  have hinner : refreshTokenInner s tok t1 = .ok (s2, pair) := by
    cases hx : refreshTokenInner s tok t1 with
    | ok r =>
      rw [refreshToken, hx] at h1
      have : r = (s2, pair) := by simpa using h1
      rw [this]
    | error e =>
      rw [refreshToken, hx] at h1
      cases h1
  cases hjv : jwtVerify tok JWT_REFRESH_SECRET t1 with
  | error e =>
    rw [refreshTokenInner, hjv] at hinner
    cases hinner
  | ok payload =>
    obtain ⟨hpc, hsec, hexp⟩ := jwtVerify_ok_inversion tok JWT_REFRESH_SECRET t1 payload hjv
    subst hpc
    cases hf : findById s tok.claims.sub with
    | none =>
      rw [refreshTokenInner, hjv] at hinner
      dsimp only at hinner
      rw [hf] at hinner
      cases hinner
    | some auth =>
      cases hcur : auth.currentHashedRefreshToken with
      | none =>
        rw [refreshTokenInner, hjv] at hinner
        dsimp only at hinner
        rw [hf] at hinner
        dsimp only at hinner
        rw [hcur] at hinner
        cases hinner
      | some stored =>
        by_cases hcmp : bcryptCompareToken tok stored = false
        · rw [refreshTokenInner, hjv] at hinner
          dsimp only at hinner
          rw [hf] at hinner
          dsimp only at hinner
          rw [hcur] at hinner
          dsimp only at hinner
          rw [if_pos hcmp] at hinner
          cases hinner
        · have hred : refreshTokenInner s tok t1 =
              .ok (updateById s auth.id (setRefreshHash
                  (some (.ofToken (generateTokens auth t1).refresh_token 10))),
                generateTokens auth t1) := by
            simp [refreshTokenInner, hjv, hf, hcur, hcmp]
          rw [hred] at hinner
          have hps : updateById s auth.id (setRefreshHash
              (some (.ofToken (generateTokens auth t1).refresh_token 10))) = s2
              ∧ generateTokens auth t1 = pair := by
            simpa [Prod.ext_iff] using hinner
          obtain ⟨hs2, hpr⟩ := hps
          have haid : auth.id = tok.claims.sub := findById_id s tok.claims.sub auth hf
          have hA : findById s2 tok.claims.sub =
              some (setRefreshHash (some (.ofToken pair.refresh_token 10)) auth) := by
            rw [← hs2, ← hpr, haid]
            rw [findById_updateById s tok.claims.sub
              (setRefreshHash (some (.ofToken (generateTokens auth t1).refresh_token 10)))
              (fun u => rfl), hf]
            rfl
          have hBneq : tok ≠ pair.refresh_token := by
            intro hcontr
            apply hiat
            rw [← hpr] at hcontr
            rw [hcontr]
            rfl
          refine ⟨⟨setRefreshHash (some (.ofToken pair.refresh_token 10)) auth, hA, rfl, ?_⟩,
            hBneq, ?_⟩
          · intro t3
            simp [bcryptCompareToken]
          · cases hjv2 : jwtVerify tok JWT_REFRESH_SECRET t2 with
            | error e =>
              simp [refreshToken, refreshTokenInner, hjv2]
            | ok p2 =>
              obtain ⟨hp2, _, _⟩ := jwtVerify_ok_inversion tok JWT_REFRESH_SECRET t2 p2 hjv2
              subst hp2
              simp [refreshToken, refreshTokenInner, hjv2, hA, setRefreshHash,
                bcryptCompareToken, hBneq]

/-- C1 (witness): a concrete store holding the hash of a refresh token
issued at instant 0; refreshing at instant 1 succeeds and rotates, and
replaying the instant-0 token at instant 5 against the rotated store is
refused. -/
theorem refreshToken_rotation_witness :
    refreshToken
      [⟨"auth-1", "a@b.com", some (.ofPassword "Secret123" 10), [Role.user], none, none,
        some (.ofToken ⟨⟨"a@b.com", "auth-1", [Role.user]⟩,
          "your-default-refresh-secret", 1, 604801⟩ 10), none⟩]
      ⟨⟨"a@b.com", "auth-1", [Role.user]⟩, "your-default-refresh-secret", 0, 604800⟩ 5 =
      .error (.unauthorized "Invalid refresh token") :=
  (refreshToken_rotation
    [⟨"auth-1", "a@b.com", some (.ofPassword "Secret123" 10), [Role.user], none, none,
      some (.ofToken ⟨⟨"a@b.com", "auth-1", [Role.user]⟩,
        "your-default-refresh-secret", 0, 604800⟩ 10), none⟩]
    ⟨⟨"a@b.com", "auth-1", [Role.user]⟩, "your-default-refresh-secret", 0, 604800⟩ 1 5
    [⟨"auth-1", "a@b.com", some (.ofPassword "Secret123" 10), [Role.user], none, none,
      some (.ofToken ⟨⟨"a@b.com", "auth-1", [Role.user]⟩,
        "your-default-refresh-secret", 1, 604801⟩ 10), none⟩]
    ⟨⟨⟨"a@b.com", "auth-1", [Role.user]⟩, "your-default-secret", 1, 3601⟩,
      ⟨⟨"a@b.com", "auth-1", [Role.user]⟩, "your-default-refresh-secret", 1, 604801⟩⟩
    (by decide) (by decide)).2.2

end CleanArch
